import Mathlib

/-!
Verification of the resumable Waymo E2E annotation pipeline
(`waymo_e2e_processor.py` and the modules under `src/`).

The embedding below translates the pipeline's core components into Lean:

* `TrajectoryExtractor` — `src/trajectory_extractor.py` (validation and
  extraction of past/future trajectories and ego status).
* `VLMClient.call_vlm` — `src/vlm_client.py` (retry/backoff loop).
* `OutputHandler` — `src/output_handler.py` (result files, checkpoint
  save/load, modelled as explicit file-system state machines with crash
  points for the atomicity claims).
* `WaymoE2EPipeline.process_frame` / `run` — `waymo_e2e_processor.py`
  (the sequential frame loop with resume-skip and periodic checkpoints).
* `WaymoE2EDatasetLoader.sample_frames_at_target_frequency` —
  `src/dataset_loader.py` (global-index subsampling over sorted shards).

Numeric conventions: trajectory coordinates and velocities are Python
floats used only as opaque payloads by every property below, so they are
carried as `Int`; retry delays are exact (`2.0 * 2 ** attempt` over
binary floats) and carried as `ℚ`.  The ego `speed` field,
`np.sqrt(vel_x² + vel_y²)`, is irrational in general and no property
reads it, so the embedding stores the exact radicand `speed_sq` instead.
Wall-clock fields (`processing_timestamp`, `last_updated`) are modelled
as `Nat` inputs where a property needs them and omitted where none does.

External collaborators (image decoding, prompt templating, the remote
annotation service, JSON decoding of the service's reply) are passed in
as explicit function parameters, mirroring how the Python pipeline holds
them as injected component objects; everything the claims quantify over
is embedded directly from the source.
-/

/-- One repeated-state block of the Waymo `E2EDFrame` proto
(`past_states` / `future_states`): parallel coordinate and velocity
arrays, exactly the fields read by `trajectory_extractor.py`. -/
structure StateSeq where
  pos_x : List Int
  pos_y : List Int
  pos_z : List Int
  vel_x : List Int
  vel_y : List Int
deriving DecidableEq

/-- The slice of a Waymo `E2EDFrame` proto the pipeline reads:
`frame.frame.context.name`, `frame.frame.timestamp_micros`
(`waymo_e2e_processor.py` lines 89-90), the two state blocks and the
`intent` field (`trajectory_extractor.py`). -/
structure E2EDFrame where
  contextName : String
  timestampMicros : Nat
  pastStates : StateSeq
  futureStates : StateSeq
  intent : Nat
deriving DecidableEq

/-- Intent mapping `INTENT_MAP` from `trajectory_extractor.py`;
`INTENT_MAP.get(frame.intent, "UNKNOWN")`. -/
def INTENT_MAP (i : Nat) : String :=
  if i = 1 then "GO_STRAIGHT"
  else if i = 2 then "GO_LEFT"
  else if i = 3 then "GO_RIGHT"
  else "UNKNOWN"

/-- Ego status as produced by `TrajectoryExtractor.extract_ego_status`.
The source stores `speed = np.sqrt(vel_x**2 + vel_y**2)`; the embedding
keeps the exact radicand `speed_sq` (no claim reads the speed). -/
structure EgoStatus where
  velocity : Int × Int
  speed_sq : Int
  intent : String
deriving DecidableEq

/-- Configuration slice of `TrajectoryExtractor.__init__`. -/
structure TrajectoryExtractor where
  past_duration_seconds : Nat
  past_frequency_hz : Nat
  future_duration_seconds : Nat
  future_frequency_hz : Nat
deriving DecidableEq

/-- `self.expected_past_points = past_duration_seconds * past_frequency_hz`. -/
def TrajectoryExtractor.expected_past_points (t : TrajectoryExtractor) : Nat :=
  t.past_duration_seconds * t.past_frequency_hz

/-- `self.expected_future_points = future_duration_seconds * future_frequency_hz`. -/
def TrajectoryExtractor.expected_future_points (t : TrajectoryExtractor) : Nat :=
  t.future_duration_seconds * t.future_frequency_hz

/-- `TrajectoryExtractor.validate_frame`: returns `(is_valid, error_message)`.
Checks, in source order: past xyz arrays equal length, past length equals
`expected_past_points`, future xyz arrays equal length, future length
equals `expected_future_points`. -/
def TrajectoryExtractor.validate_frame (t : TrajectoryExtractor) (f : E2EDFrame) :
    Bool × String :=
  let past_x_len := f.pastStates.pos_x.length
  let past_y_len := f.pastStates.pos_y.length
  let past_z_len := f.pastStates.pos_z.length
  if past_x_len ≠ past_y_len ∨ past_x_len ≠ past_z_len then
    (false, "Past trajectory arrays have mismatched lengths")
  else if past_x_len ≠ t.expected_past_points then
    (false, "Expected past points mismatch")
  else
    let future_x_len := f.futureStates.pos_x.length
    let future_y_len := f.futureStates.pos_y.length
    let future_z_len := f.futureStates.pos_z.length
    if future_x_len ≠ future_y_len ∨ future_x_len ≠ future_z_len then
      (false, "Future trajectory arrays have mismatched lengths")
    else if future_x_len ≠ t.expected_future_points then
      (false, "Expected future points mismatch")
    else
      (true, "")

/-- `extract_past_trajectory` / `extract_future_trajectory`: zips the three
coordinate arrays into `[x, y, z]` points (the Python loop indexes all
three arrays by `range(len(pos_x))`; on a validated frame the arrays have
equal length, which is the only case the pipeline uses). -/
def extractTrajectory (s : StateSeq) : List (Int × Int × Int) :=
  (s.pos_x.zip (s.pos_y.zip s.pos_z)).map (fun p => (p.1, p.2.1, p.2.2))

/-- `TrajectoryExtractor.extract_ego_status`: last velocity component or
`0.0` when the array is empty, squared speed, mapped intent. -/
def TrajectoryExtractor.extract_ego_status (f : E2EDFrame) : EgoStatus :=
  let vx := (f.pastStates.vel_x.getLast?).getD 0
  let vy := (f.pastStates.vel_y.getLast?).getD 0
  { velocity := (vx, vy), speed_sq := vx ^ 2 + vy ^ 2, intent := INTENT_MAP f.intent }

/-- Return value of `TrajectoryExtractor.extract_all`. -/
structure TrajectoryData where
  past_trajectory : List (Int × Int × Int)
  future_trajectory : List (Int × Int × Int)
  ego_status : EgoStatus
deriving DecidableEq

/-- `TrajectoryExtractor.extract_all`: raises `ValueError(error_msg)` when
`validate_frame` fails, otherwise returns the extracted dictionary.
The raise is modelled as `Except.error`. -/
def TrajectoryExtractor.extract_all (t : TrajectoryExtractor) (f : E2EDFrame) :
    Except String TrajectoryData :=
  let v := t.validate_frame f
  if v.1 then
    Except.ok
      { past_trajectory := extractTrajectory f.pastStates
        future_trajectory := extractTrajectory f.futureStates
        ego_status := TrajectoryExtractor.extract_ego_status f }
  else
    Except.error v.2

/-- Outcome of one attempted call to `call_vlm_with_oneapi` (the external
service boundary).  `failure fatal` records the kind of the raised
exception — `fatal := true` for an auth/malformed-request error,
`fatal := false` for a transient network/timeout error.  The source's
`except Exception` clause catches both without distinguishing them. -/
inductive VlmAttemptOutcome where
  | success (response : String)
  | failure (fatal : Bool)
deriving DecidableEq

/-- Erases the failure kind of an attempt outcome: what
`VLMClient.call_vlm`'s `try`/`except Exception` can actually observe. -/
def VlmAttemptOutcome.observed : VlmAttemptOutcome → Option String
  | .success r => some r
  | .failure _ => none

/-- Configuration slice of `VLMClient.__init__`. -/
structure VLMClient where
  max_retries : Nat
  retry_delay_seconds : ℚ
deriving DecidableEq

/-- Trace of one `VLMClient.call_vlm` invocation: the returned value
(`None` on exhaustion), the `time.sleep` delays performed in order, and
the number of service attempts made. -/
structure VlmCallTrace where
  result : Option String
  sleeps : List ℚ
  attempts : Nat
deriving DecidableEq

/-- The body of `VLMClient.call_vlm`'s `for attempt in range(max_retries)`
loop, with `attempt` the current index and `remaining` the iterations
left (`max_retries - attempt`).  On success the response is returned; on
any exception, if `attempt < max_retries - 1` the client sleeps
`retry_delay_seconds * 2 ** attempt` and continues, else returns `None`. -/
def callVlmGo (c : VLMClient) (env : Nat → VlmAttemptOutcome) :
    Nat → Nat → VlmCallTrace
  | _, 0 => { result := none, sleeps := [], attempts := 0 }
  | attempt, r + 1 =>
    match env attempt with
    | .success resp => { result := some resp, sleeps := [], attempts := 1 }
    | .failure _ =>
      if attempt < c.max_retries - 1 then
        let d := c.retry_delay_seconds * 2 ^ attempt
        let rest := callVlmGo c env (attempt + 1) r
        { result := rest.result, sleeps := d :: rest.sleeps, attempts := rest.attempts + 1 }
      else
        { result := none, sleeps := [], attempts := 1 }

/-- `VLMClient.call_vlm`: runs the retry loop from attempt 0.  `env i`
is the outcome the external service would produce on the i-th attempt. -/
def VLMClient.call_vlm (c : VLMClient) (env : Nat → VlmAttemptOutcome) : VlmCallTrace :=
  callVlmGo c env 0 c.max_retries

/-- Parsed annotation reply as returned by `VLMClient.parse_response`
(a JSON dictionary with the three required top-level keys; the pipeline
treats it opaquely after validation). -/
structure VlmResponse where
  critical_objects : List (String × String)
  explanation : String
  meta_speed : String
  meta_command : String
deriving DecidableEq

/-- The `metadata` block of a persisted result record
(`process_frame` lines 132-136 plus `frame_name` added by
`OutputHandler.save_result`; the wall-clock `processing_timestamp` is
not modelled — no property below reads it, and run 2 of the resume
claims writes no record at all). -/
structure ResultMetadata where
  frame_name : String
  timestamp_micros : Nat
  model_name : String
  image_mode : String
deriving DecidableEq

/-- The `input_data` block of a persisted result record
(`process_frame` lines 139-144). -/
structure InputData where
  past_trajectory : List (Int × Int × Int)
  future_trajectory : List (Int × Int × Int)
  ego_status : EgoStatus
  images_included : List String
deriving DecidableEq

/-- One persisted per-frame result record as assembled by
`OutputHandler.save_result` lines 94-102. -/
structure ResultRecord where
  metadata : ResultMetadata
  input_data : InputData
  vlm_response : VlmResponse
deriving DecidableEq

/-- Configuration slice the frame loop reads
(`config.vlm_api.model_name`, `config.image_processing.input_mode`,
`config.processing.checkpoint_interval`, and the trajectory extractor's
configuration). -/
structure PipelineCfg where
  extractor : TrajectoryExtractor
  model_name : String
  input_mode : String
  checkpoint_interval : Nat
deriving DecidableEq

/-- External collaborators of the frame loop, deterministic functions of
their inputs (the resume claims assume an unchanged dataset and a
deterministic environment):

* `processImages` — `ImageProcessor.process_images` (JPEG decode/resize,
  out-of-scope collaborator); empty list means extraction failed.
* `buildPrompt` — `PromptBuilder.build_prompt` (string templating).
* `service` — the value `VLMClient.call_vlm` returns for a request with
  the given user prompt and images (`None` after retry exhaustion); its
  internal retry loop is the separately embedded `VLMClient.call_vlm`.
* `parseResponse` — `VLMClient.parse_response` (brace slicing,
  `json.loads` and structure validation), `None` on any parse or
  schema failure.
* `saveOk` — whether writing `results/{frame_name}.json` succeeds;
  `false` means `OutputHandler.save_result` raises
  (`output_handler.py` lines 119-121). -/
structure PipelineEnv where
  processImages : E2EDFrame → List String
  buildPrompt : TrajectoryData → String
  service : String → List String → Option String
  parseResponse : String → Option VlmResponse
  saveOk : String → Bool

/-- Which statistics counter `process_frame` incremented. -/
inductive FrameOutcome where
  | processed
  | skipped
  | failed
deriving DecidableEq

/-- Observable effect of one `WaymoE2EPipeline.process_frame` call: the
boolean return value, the counter incremented, whether the VLM client
was invoked, and the result file written (if any). -/
structure FrameStep where
  success : Bool
  outcome : FrameOutcome
  vlmCalled : Bool
  saved : Option (String × ResultRecord)
deriving DecidableEq

/-- `WaymoE2EPipeline.process_frame`, in source order: extract images
(empty → skipped), `extract_all` (`ValueError` → skipped), build prompt,
call the VLM client (falsy reply → failed), parse the reply (falsy →
failed), assemble the record and `save_result` (an exception from the
save is caught by the method's own `except Exception` handler at lines
157-160 and counted as a failed frame — it does not propagate). -/
def process_frame (cfg : PipelineCfg) (env : PipelineEnv) (f : E2EDFrame) : FrameStep :=
  let frame_name := f.contextName
  let images := env.processImages f
  if images = [] then
    { success := false, outcome := .skipped, vlmCalled := false, saved := none }
  else
    match cfg.extractor.extract_all f with
    | .error _ =>
      { success := false, outcome := .skipped, vlmCalled := false, saved := none }
    | .ok td =>
      let user_prompt := env.buildPrompt td
      match env.service user_prompt images with
      | none =>
        { success := false, outcome := .failed, vlmCalled := true, saved := none }
      | some txt =>
        if txt = "" then
          { success := false, outcome := .failed, vlmCalled := true, saved := none }
        else
          match env.parseResponse txt with
          | none =>
            { success := false, outcome := .failed, vlmCalled := true, saved := none }
          | some resp =>
            let record : ResultRecord :=
              { metadata :=
                  { frame_name := frame_name
                    timestamp_micros := f.timestampMicros
                    model_name := cfg.model_name
                    image_mode := cfg.input_mode }
                input_data :=
                  { past_trajectory := td.past_trajectory
                    future_trajectory := td.future_trajectory
                    ego_status := td.ego_status
                    images_included :=
                      if cfg.input_mode = "concatenated" then ["concatenated"]
                      else ["front_left", "front", "front_right"] }
                vlm_response := resp }
            if env.saveOk frame_name then
              { success := true, outcome := .processed, vlmCalled := true,
                saved := some (frame_name, record) }
            else
              { success := false, outcome := .failed, vlmCalled := true, saved := none }

/-- Python `set.add` on the membership-list representation of
`processed_frames_set`. -/
def setAdd (x : String) (s : List String) : List String :=
  if x ∈ s then s else x :: s

/-- Mutable state of `WaymoE2EPipeline.run`: the in-memory processed set,
the three statistics counters, the loop's `frame_index`, plus the
observables the claims quantify over — the number of VLM-client
invocations, every checkpoint set passed to `save_checkpoint` in order,
and every result file written in order. -/
structure RunState where
  processed_frames_set : List String
  processed : Nat
  skipped : Nat
  failed : Nat
  frame_index : Nat
  vlmCalls : Nat
  checkpoints : List (List String)
  results_written : List (String × ResultRecord)
deriving DecidableEq

/-- One iteration of the `for frame in frame_iterator` loop in
`WaymoE2EPipeline.run` (lines 187-217): resume-skip by `frame_name`
membership (which `continue`s past the periodic-checkpoint block),
otherwise `process_frame`, set insertion on success, then the periodic
`save_checkpoint` when `(frame_index + 1) % checkpoint_interval == 0`,
and finally `frame_index += 1`. -/
def runStep (cfg : PipelineCfg) (env : PipelineEnv) (resume : Bool)
    (st : RunState) (f : E2EDFrame) : RunState :=
  let frame_name := f.contextName
  if resume ∧ frame_name ∈ st.processed_frames_set then
    { st with frame_index := st.frame_index + 1 }
  else
    let r := process_frame cfg env f
    let set' := if r.success then setAdd frame_name st.processed_frames_set
                else st.processed_frames_set
    let st' : RunState :=
      { processed_frames_set := set'
        processed := st.processed + (if r.outcome = .processed then 1 else 0)
        skipped := st.skipped + (if r.outcome = .skipped then 1 else 0)
        failed := st.failed + (if r.outcome = .failed then 1 else 0)
        frame_index := st.frame_index
        vlmCalls := st.vlmCalls + (if r.vlmCalled then 1 else 0)
        checkpoints := st.checkpoints
        results_written := st.results_written ++
          (match r.saved with | some w => [w] | none => []) }
    let st'' :=
      if (st.frame_index + 1) % cfg.checkpoint_interval = 0 then
        { st' with checkpoints := st'.checkpoints ++ [set'] }
      else st'
    { st'' with frame_index := st.frame_index + 1 }

/-- The frame loop of `WaymoE2EPipeline.run` folded over the (already
sampled and decoded) frame sequence. -/
def runFrames (cfg : PipelineCfg) (env : PipelineEnv) (resume : Bool) :
    RunState → List E2EDFrame → RunState
  | st, [] => st
  | st, f :: rest => runFrames cfg env resume (runStep cfg env resume st f) rest

/-- Initial `RunState` of a run whose loaded checkpoint is `ckpt`. -/
def initState (ckpt : List String) : RunState :=
  { processed_frames_set := ckpt
    processed := 0, skipped := 0, failed := 0, frame_index := 0
    vlmCalls := 0, checkpoints := [], results_written := [] }

/-- `WaymoE2EPipeline.run`: load the checkpoint when resuming (lines
174-178; `ckpt` is what `load_checkpoint` returned), run the frame loop,
then the `finally` block's unconditional final `save_checkpoint`
(line 225). -/
def WaymoE2EPipeline.run (cfg : PipelineCfg) (env : PipelineEnv) (resume : Bool)
    (ckpt : List String) (frames : List E2EDFrame) : RunState :=
  let st := runFrames cfg env resume (initState (if resume then ckpt else [])) frames
  { st with checkpoints := st.checkpoints ++ [st.processed_frames_set] }

/-- Checkpoint content as serialized by `OutputHandler.save_checkpoint`
(lines 150-154): `last_updated` (wall clock, modelled as a `Nat`),
`total_processed = len(processed_frames)`, and the sorted frame-id list. -/
structure Checkpoint where
  last_updated : Nat
  total_processed : Nat
  processed_frames : List String
deriving DecidableEq

/-- Content of one on-disk file for the persistence claims: either a
complete JSON serialization of a checkpoint, or a torn file (a proper
prefix of some serialization, left by a write that was interrupted
part-way; never valid checkpoint JSON). -/
inductive CkptFileData where
  | complete (c : Checkpoint)
  | torn (bytes : String)
deriving DecidableEq

/-- File-system state relevant to `save_checkpoint`: the canonical
`checkpoint.json` path and the `checkpoint.tmp` path it writes first. -/
structure CkptFS where
  canonical : Option CkptFileData
  temp : Option CkptFileData
deriving DecidableEq

/-- Where the process may be killed inside `save_checkpoint`:
before the temp file is written, in the middle of the temp write
(leaving torn bytes at the temp path), after the temp write but before
the rename, or not at all (the `temp_path.replace(checkpoint_path)`
rename completed; POSIX rename is atomic). -/
inductive CkptCrashPoint where
  | beforeTempWrite
  | duringTempWrite
  | afterTempWrite
  | completed
deriving DecidableEq

/-- Lexicographic comparison of strings by code point, Python's `<` on
`str` (written on `List Char` so that it evaluates by kernel reduction). -/
def strLtB : List Char → List Char → Bool
  | [], [] => false
  | [], _ :: _ => true
  | _ :: _, [] => false
  | a :: as, b :: bs =>
    if a.val < b.val then true else if b.val < a.val then false else strLtB as bs

/-- Python's `<=` on `str`. -/
def strLeB (a b : String) : Bool := !(strLtB b.data a.data)

/-- Stable insertion into an ascending list: the new element goes after
every existing element that is `le` it. -/
def insertLe (le : α → α → Bool) (x : α) : List α → List α
  | [] => [x]
  | y :: ys => if le y x then y :: insertLe le x ys else x :: y :: ys

/-- Python's `sorted`: stable ascending sort under `le`. -/
def pySorted (le : α → α → Bool) (l : List α) : List α :=
  l.foldl (fun acc x => insertLe le x acc) []

/-- The dictionary built by `save_checkpoint`:
`{"last_updated": now, "total_processed": len(s), "processed_frames": sorted(list(s))}`. -/
def checkpointContent (now : Nat) (s : List String) : Checkpoint :=
  { last_updated := now
    total_processed := s.length
    processed_frames := pySorted strLeB s }

/-- `OutputHandler.save_checkpoint` (lines 156-161) as a crash-indexed
state transformer: write the full serialization to `checkpoint.tmp`,
then rename it over `checkpoint.json`.  `tornBytes` is whatever proper
prefix a mid-write kill left behind. -/
def save_checkpoint (fs : CkptFS) (now : Nat) (s : List String) (tornBytes : String) :
    CkptCrashPoint → CkptFS
  | .beforeTempWrite => fs
  | .duringTempWrite => { fs with temp := some (.torn tornBytes) }
  | .afterTempWrite => { fs with temp := some (.complete (checkpointContent now s)) }
  | .completed => { canonical := some (.complete (checkpointContent now s)), temp := none }

/-- `OutputHandler.load_checkpoint` (lines 123-141): empty set when the
file is absent; empty set (with a warning) when the JSON fails to parse,
which is the case for any torn file; otherwise the stored frame set. -/
def load_checkpoint : Option CkptFileData → List String
  | none => []
  | some (.torn _) => []
  | some (.complete c) => c.processed_frames

/-- Content of one result file under `results/`: complete serialized
record, or torn bytes from an interrupted write. -/
inductive ResFileData where
  | complete (r : ResultRecord)
  | torn (bytes : String)
deriving DecidableEq

/-- The result file key: `save_result` line 113 writes to
`results_dir / f"{frame_name}.json"`. -/
def resultFileName (frame_name : String) : String :=
  frame_name ++ ".json"

/-- Association-list file system for the results directory, keyed by
file name. -/
def ResultsFS := List (String × ResFileData)

/-- Write (create or replace) one file in the results directory. -/
def fsWrite (fs : ResultsFS) (name : String) (d : ResFileData) : ResultsFS :=
  (name, d) :: List.filter (fun p => p.1 ≠ name) fs

/-- Read one file from the results directory. -/
def fsRead (fs : ResultsFS) (name : String) : Option ResFileData :=
  (fs.find? (fun p => p.1 = name)).map Prod.snd

/-- Where the process may be killed inside `save_result`'s write
(lines 115-117): before `open(output_file, 'w')` runs, right after the
open (which truncates the file to empty), during `json.dump` (leaving a
proper prefix of the serialization), or not at all. -/
inductive ResCrashPoint where
  | beforeOpen
  | afterOpen
  | duringWrite
  | completed
deriving DecidableEq

/-- `OutputHandler.save_result`'s file write as a crash-indexed state
transformer.  Unlike `save_checkpoint` there is no temporary file and no
rename: the record is dumped directly into the canonical
`results/{frame_name}.json`. -/
def save_result (fs : ResultsFS) (frame_name : String) (record : ResultRecord)
    (tornBytes : String) : ResCrashPoint → ResultsFS
  | .beforeOpen => fs
  | .afterOpen => fsWrite fs (resultFileName frame_name) (.torn "")
  | .duringWrite => fsWrite fs (resultFileName frame_name) (.torn tornBytes)
  | .completed => fsWrite fs (resultFileName frame_name) (.complete record)

/-- `int(10 / sampling_frequency_hz)` from
`WaymoE2EDatasetLoader.__init__` (the dataset is 10 Hz). -/
def sampling_interval (sampling_frequency_hz : Nat) : Nat :=
  10 / sampling_frequency_hz

/-- The counting loop of
`WaymoE2EDatasetLoader.sample_frames_at_target_frequency`:
`frame_count` starts at the given value and increments for every record;
a record is yielded iff `frame_count % interval == 0`. -/
def sampleGo (interval : Nat) : Nat → List α → List α
  | _, [] => []
  | frame_count, b :: rest =>
    if frame_count % interval = 0 then b :: sampleGo interval (frame_count + 1) rest
    else sampleGo interval (frame_count + 1) rest

/-- `WaymoE2EDatasetLoader.sample_frames_at_target_frequency`: the
counter starts at 0, so the record at global index `i` is yielded iff
`i % interval == 0`. -/
def sample_frames_at_target_frequency (interval : Nat) (dataset : List α) : List α :=
  sampleGo interval 0 dataset

/-- `WaymoE2EDatasetLoader.load_dataset`: resolve the shard pattern to a
list of `(filename, records)` shards, sort the filenames
lexicographically, and concatenate the record streams in that order
(`TFRecordDataset` over the sorted file list). -/
def load_dataset (shards : List (String × List α)) : List α :=
  ((pySorted (fun a b => strLeB a.1 b.1) shards).map Prod.snd).flatten

/-- The frame identity the pipeline uses everywhere: `frame_name =
frame.frame.context.name` (`waymo_e2e_processor.py` line 89).  It keys
the result file (`save_result`), checkpoint membership (`run` line 191)
and the processed set (line 200); the `timestamp_micros` read on line 90
is only stored inside the record's metadata. -/
def frame_name_of (f : E2EDFrame) : String :=
  f.contextName

/-- A frame reaches the annotation call inside `process_frame` exactly
when its images extract to a non-empty list and `validate_frame`
accepts it. -/
def reachesVlm (cfg : PipelineCfg) (env : PipelineEnv) (f : E2EDFrame) : Prop :=
  env.processImages f ≠ [] ∧ (cfg.extractor.validate_frame f).1 = true

instance decReachesVlm (cfg : PipelineCfg) (env : PipelineEnv) (f : E2EDFrame) :
    Decidable (reachesVlm cfg env f) := by
  unfold reachesVlm; infer_instance

/-- State block with `n` points in every array (concrete test frames). -/
def stateSeqOfLen (n : Nat) : StateSeq :=
  { pos_x := List.replicate n 0, pos_y := List.replicate n 0, pos_z := List.replicate n 0
    vel_x := List.replicate n 1, vel_y := List.replicate n 0 }

/-- The `config.py` defaults: 4 s past at 4 Hz (16 points), 5 s future
at 4 Hz (20 points). -/
def defaultExtractor : TrajectoryExtractor :=
  { past_duration_seconds := 4, past_frequency_hz := 4
    future_duration_seconds := 5, future_frequency_hz := 4 }

/-- A structurally complete frame (16 past / 20 future points). -/
def goodFrame (name : String) (ts : Nat) : E2EDFrame :=
  { contextName := name, timestampMicros := ts, pastStates := stateSeqOfLen 16
    futureStates := stateSeqOfLen 20, intent := 1 }

/-- A frame with only 15 past-trajectory points where 16 are expected. -/
def shortPastFrame : E2EDFrame :=
  { contextName := "seg-short", timestampMicros := 7, pastStates := stateSeqOfLen 15
    futureStates := stateSeqOfLen 20, intent := 1 }

/-- Pipeline configuration with the `config.py` defaults. -/
def testCfg : PipelineCfg :=
  { extractor := defaultExtractor, model_name := "gemini-2.5-flash"
    input_mode := "separate", checkpoint_interval := 10 }

/-- A schema-valid parsed annotation reply. -/
def okResponse : VlmResponse :=
  { critical_objects := [("nearby_vehicle", "no")], explanation := "e"
    meta_speed := "keep", meta_command := "straight" }

/-- Environment in which every stage succeeds deterministically. -/
def envAllOk : PipelineEnv :=
  { processImages := fun _ => ["img"], buildPrompt := fun _ => "p"
    service := fun _ _ => some "resp", parseResponse := fun _ => some okResponse
    saveOk := fun _ => true }

/-- Environment whose annotation service deterministically fails
(`call_vlm` exhausts its retries and returns `None` on every request). -/
def envServiceDown : PipelineEnv :=
  { envAllOk with service := fun _ _ => none }

/-- Environment in which writing the result file for frame id `bad`
raises a persistence error and every other stage succeeds. -/
def envSaveFailsFor (bad : String) : PipelineEnv :=
  { envAllOk with saveOk := fun n => n != bad }

/-- A concrete persisted result record. -/
def sampleRecord : ResultRecord :=
  { metadata := { frame_name := "f", timestamp_micros := 0, model_name := "m"
                  image_mode := "separate" }
    input_data := { past_trajectory := [], future_trajectory := []
                    ego_status := { velocity := (0, 0), speed_sq := 0, intent := "UNKNOWN" }
                    images_included := ["front"] }
    vlm_response := okResponse }

/-- The same frame's record produced by a later run with another model. -/
def sampleRecord2 : ResultRecord :=
  { sampleRecord with metadata := { sampleRecord.metadata with model_name := "m2" } }

/-! Helper lemmas shared by the claim theorems. -/

theorem sampleGo_enumFrom {α : Type} (interval : Nat) (l : List α) :
    ∀ c, sampleGo interval c l =
      (List.enumFrom c l).filterMap
        (fun p => if p.1 % interval = 0 then some p.2 else none) := by
  induction l with
  | nil => intro c; rfl
  | cons b rest ih =>
    intro c
    simp only [sampleGo, List.enumFrom, List.filterMap_cons]
    by_cases h : c % interval = 0
    · simp [h, ih]
    · simp [h, ih]

theorem callVlmGo_attempts_le (c : VLMClient) (env : Nat → VlmAttemptOutcome) :
    ∀ r a, (callVlmGo c env a r).attempts ≤ r := by
  intro r
  induction r with
  | zero => intro a; simp [callVlmGo]
  | succ n ih =>
    intro a
    simp only [callVlmGo]
    cases env a with
    | success resp => simp
    | failure fatal =>
      by_cases h : a < c.max_retries - 1
      · simp only [h, if_true]
        exact Nat.succ_le_succ (ih (a + 1))
      · simp [h]

theorem call_vlm_attempts_le (c : VLMClient) (env : Nat → VlmAttemptOutcome) :
    (VLMClient.call_vlm c env).attempts ≤ c.max_retries :=
  callVlmGo_attempts_le c env c.max_retries 0

theorem callVlmGo_observed_eq (c : VLMClient) (envA envB : Nat → VlmAttemptOutcome)
    (h : ∀ i, (envA i).observed = (envB i).observed) :
    ∀ r a, callVlmGo c envA a r = callVlmGo c envB a r := by
  intro r
  induction r with
  | zero => intro a; rfl
  | succ n ih =>
    intro a
    have ha := h a
    simp only [callVlmGo]
    cases hA : envA a with
    | success resp =>
      cases hB : envB a with
      | success resp' =>
        rw [hA, hB] at ha
        simp [VlmAttemptOutcome.observed] at ha
        rw [ha]
      | failure fatal => rw [hA, hB] at ha; simp [VlmAttemptOutcome.observed] at ha
    | failure fatal =>
      cases hB : envB a with
      | success resp' => rw [hA, hB] at ha; simp [VlmAttemptOutcome.observed] at ha
      | failure fatal' => simp [ih (a + 1)]

theorem callVlmGo_all_fail (c : VLMClient) (env : Nat → VlmAttemptOutcome)
    (h : ∀ i, (env i).observed = none) :
    ∀ r a, 0 < r → a + r = c.max_retries →
      callVlmGo c env a r =
        { result := none
          sleeps := (List.range (r - 1)).map (fun i => c.retry_delay_seconds * 2 ^ (a + i))
          attempts := r } := by
  intro r
  induction r with
  | zero => intro a h0; omega
  | succ n ih =>
    intro a _ hsum
    have ha := h a
    simp only [callVlmGo]
    cases hA : env a with
    | success resp => rw [hA] at ha; simp [VlmAttemptOutcome.observed] at ha
    | failure fatal =>
      by_cases hn : 0 < n
      · have hlt : a < c.max_retries - 1 := by omega
        simp only [hlt, if_true]
        rw [ih (a + 1) hn (by omega)]
        have hr : n + 1 - 1 = n := rfl
        rw [hr]
        cases n with
        | zero => omega
        | succ m =>
          simp [List.range_succ_eq_map, List.map_map, Function.comp]
          intro x hx
          left
          omega
      · have hn0 : n = 0 := by omega
        subst hn0
        have hlt : ¬ a < c.max_retries - 1 := by omega
        simp [hlt]

theorem pf_not_reach (cfg : PipelineCfg) (env : PipelineEnv) (f : E2EDFrame)
    (h : ¬ reachesVlm cfg env f) :
    process_frame cfg env f =
      { success := false, outcome := .skipped, vlmCalled := false, saved := none } := by
  unfold reachesVlm at h
  unfold process_frame
  by_cases himg : env.processImages f = []
  · simp [himg]
  · cases hval : (cfg.extractor.validate_frame f).1 with
    | true => exact absurd ⟨himg, hval⟩ h
    | false =>
      simp only [himg, if_false]
      unfold TrajectoryExtractor.extract_all
      simp [hval]

theorem pf_reach_cases (cfg : PipelineCfg) (env : PipelineEnv) (f : E2EDFrame)
    (h : reachesVlm cfg env f) :
    (process_frame cfg env f).success = true ∨
      (process_frame cfg env f).outcome = .failed := by
  obtain ⟨himg, hval⟩ := h
  unfold process_frame
  simp only [himg, if_false]
  unfold TrajectoryExtractor.extract_all
  simp only [hval, if_true]
  cases hsvc : env.service (env.buildPrompt
      { past_trajectory := extractTrajectory f.pastStates
        future_trajectory := extractTrajectory f.futureStates
        ego_status := TrajectoryExtractor.extract_ego_status f }) (env.processImages f) with
  | none => simp [hsvc]
  | some txt =>
    by_cases htxt : txt = ""
    · simp [hsvc, htxt]
    · cases hp : env.parseResponse txt with
      | none => simp [hsvc, htxt, hp]
      | some resp =>
        by_cases hs : env.saveOk f.contextName = true
        · simp [hsvc, htxt, hp, hs]
        · simp [hsvc, htxt, hp, hs]

theorem pf_success_iff (cfg : PipelineCfg) (env : PipelineEnv) (f : E2EDFrame) :
    (process_frame cfg env f).success = true ↔
      (process_frame cfg env f).outcome = .processed := by
  unfold process_frame
  by_cases himg : env.processImages f = []
  · simp [himg]
  · simp only [himg, if_false]
    cases hx : cfg.extractor.extract_all f with
    | error e => simp [hx]
    | ok td =>
      simp only [hx]
      cases hsvc : env.service (env.buildPrompt td) (env.processImages f) with
      | none => simp [hsvc]
      | some txt =>
        by_cases htxt : txt = ""
        · simp [hsvc, htxt]
        · cases hp : env.parseResponse txt with
          | none => simp [hsvc, htxt, hp]
          | some resp =>
            by_cases hs : env.saveOk f.contextName = true
            · simp [hsvc, htxt, hp, hs]
            · simp [hsvc, htxt, hp, hs]

theorem setAdd_subset (x : String) (s : List String) : s ⊆ setAdd x s := by
  unfold setAdd
  by_cases h : x ∈ s
  · simp [h]
  · simp only [h, if_false]
    exact List.subset_cons_self x s

theorem mem_setAdd_self (x : String) (s : List String) : x ∈ setAdd x s := by
  unfold setAdd
  by_cases h : x ∈ s
  · simp [h]
  · simp [h]

theorem runStep_set_mono (cfg : PipelineCfg) (env : PipelineEnv) (resume : Bool)
    (st : RunState) (f : E2EDFrame) :
    st.processed_frames_set ⊆ (runStep cfg env resume st f).processed_frames_set := by
  unfold runStep
  by_cases hskip : resume = true ∧ f.contextName ∈ st.processed_frames_set
  · simp [hskip]
  · simp only [hskip, if_false]
    by_cases hck : (st.frame_index + 1) % cfg.checkpoint_interval = 0
    · simp only [hck, if_true]
      by_cases hs : (process_frame cfg env f).success = true
      · simp [hs, setAdd_subset]
      · simp [hs]
    · simp only [hck, if_false]
      by_cases hs : (process_frame cfg env f).success = true
      · simp [hs, setAdd_subset]
      · simp [hs]

theorem runStep_failed_mono (cfg : PipelineCfg) (env : PipelineEnv) (resume : Bool)
    (st : RunState) (f : E2EDFrame) :
    st.failed ≤ (runStep cfg env resume st f).failed := by
  unfold runStep
  by_cases hskip : resume = true ∧ f.contextName ∈ st.processed_frames_set
  · simp [hskip]
  · simp only [hskip, if_false]
    by_cases hck : (st.frame_index + 1) % cfg.checkpoint_interval = 0
    · simp [hck]
    · simp [hck]

theorem runFrames_set_mono (cfg : PipelineCfg) (env : PipelineEnv) (resume : Bool) :
    ∀ (fs : List E2EDFrame) (st : RunState),
      st.processed_frames_set ⊆ (runFrames cfg env resume st fs).processed_frames_set := by
  intro fs
  induction fs with
  | nil => intro st; exact fun _ h => h
  | cons g rest ih =>
    intro st
    exact (runStep_set_mono cfg env resume st g).trans (ih (runStep cfg env resume st g))

theorem runFrames_failed_mono (cfg : PipelineCfg) (env : PipelineEnv) (resume : Bool) :
    ∀ (fs : List E2EDFrame) (st : RunState),
      st.failed ≤ (runFrames cfg env resume st fs).failed := by
  intro fs
  induction fs with
  | nil => intro st; exact le_refl _
  | cons g rest ih =>
    intro st
    exact (runStep_failed_mono cfg env resume st g).trans (ih (runStep cfg env resume st g))

theorem runStep_false_failed (cfg : PipelineCfg) (env : PipelineEnv)
    (st : RunState) (f : E2EDFrame) :
    (runStep cfg env false st f).failed =
      st.failed + (if (process_frame cfg env f).outcome = .failed then 1 else 0) := by
  unfold runStep
  simp only [Bool.false_eq_true, false_and, if_false]
  by_cases hck : (st.frame_index + 1) % cfg.checkpoint_interval = 0
  · simp [hck]
  · simp [hck]

theorem runStep_false_mem (cfg : PipelineCfg) (env : PipelineEnv)
    (st : RunState) (f : E2EDFrame)
    (h : (process_frame cfg env f).success = true) :
    f.contextName ∈ (runStep cfg env false st f).processed_frames_set := by
  unfold runStep
  simp only [Bool.false_eq_true, false_and, if_false]
  by_cases hck : (st.frame_index + 1) % cfg.checkpoint_interval = 0
  · simp [hck, h, mem_setAdd_self]
  · simp [hck, h, mem_setAdd_self]

theorem run1_reaching_in_set (cfg : PipelineCfg) (env : PipelineEnv) :
    ∀ (fs : List E2EDFrame) (st : RunState),
      (runFrames cfg env false st fs).failed = 0 →
      ∀ f ∈ fs, reachesVlm cfg env f →
        f.contextName ∈ (runFrames cfg env false st fs).processed_frames_set := by
  intro fs
  induction fs with
  | nil => intro st h f hf; exact absurd hf (List.not_mem_nil f)
  | cons g rest ih =>
    intro st h f hf hr
    rcases List.mem_cons.mp hf with heq | hmem
    · subst heq
      rcases pf_reach_cases cfg env f hr with hs | hfail
      · exact runFrames_set_mono cfg env false rest (runStep cfg env false st f)
          (runStep_false_mem cfg env st f hs)
      · exfalso
        have h1 : (runStep cfg env false st f).failed ≤ 0 := by
          calc (runStep cfg env false st f).failed
              ≤ (runFrames cfg env false (runStep cfg env false st f) rest).failed :=
                runFrames_failed_mono cfg env false rest _
            _ = 0 := h
        rw [runStep_false_failed, hfail] at h1
        simp at h1
    · exact ih (runStep cfg env false st g) h f hmem hr

theorem runFrames_resume_frozen (cfg : PipelineCfg) (env : PipelineEnv) (S : List String) :
    ∀ (fs : List E2EDFrame) (st : RunState),
      st.processed_frames_set = S →
      (∀ f ∈ fs, reachesVlm cfg env f → f.contextName ∈ S) →
      (runFrames cfg env true st fs).processed_frames_set = S ∧
      (runFrames cfg env true st fs).vlmCalls = st.vlmCalls ∧
      (runFrames cfg env true st fs).results_written = st.results_written := by
  intro fs
  induction fs with
  | nil => intro st hset _; exact ⟨hset, rfl, rfl⟩
  | cons g rest ih =>
    intro st hset H
    have hstep :
        (runStep cfg env true st g).processed_frames_set = S ∧
        (runStep cfg env true st g).vlmCalls = st.vlmCalls ∧
        (runStep cfg env true st g).results_written = st.results_written := by
      unfold runStep
      by_cases hskip : g.contextName ∈ st.processed_frames_set
      · have hskip2 : g.contextName ∈ S := hset ▸ hskip
        simp [hskip, hset, hskip2]
      · have hnr : ¬ reachesVlm cfg env g := by
          intro hr
          exact hskip (hset ▸ H g (List.mem_cons_self g rest) hr)
        have hpf := pf_not_reach cfg env g hnr
        simp only [true_and, hskip, if_false, hpf]
        by_cases hck : (st.frame_index + 1) % cfg.checkpoint_interval = 0
        · simp [hck, hset]
        · simp [hck, hset]
    obtain ⟨h1, h2, h3⟩ := ih (runStep cfg env true st g) hstep.1
      (fun f hf hr => H f (List.mem_cons_of_mem g hf) hr)
    exact ⟨h1, h2.trans hstep.2.1, h3.trans hstep.2.2⟩

theorem runStep_checkpoints (cfg : PipelineCfg) (env : PipelineEnv) (resume : Bool)
    (st : RunState) (f : E2EDFrame) :
    (runStep cfg env resume st f).checkpoints = st.checkpoints ∨
    (runStep cfg env resume st f).checkpoints =
      st.checkpoints ++ [(runStep cfg env resume st f).processed_frames_set] := by
  unfold runStep
  by_cases hskip : resume = true ∧ f.contextName ∈ st.processed_frames_set
  · simp [hskip]
  · simp only [hskip, if_false]
    by_cases hck : (st.frame_index + 1) % cfg.checkpoint_interval = 0
    · simp [hck]
    · simp [hck]

theorem runStep_pairwise_inv (cfg : PipelineCfg) (env : PipelineEnv) (resume : Bool)
    (init : List String) (st : RunState) (f : E2EDFrame)
    (h1 : List.Pairwise (· ⊆ ·) (init :: st.checkpoints))
    (h2 : ∀ c ∈ init :: st.checkpoints, c ⊆ st.processed_frames_set) :
    List.Pairwise (· ⊆ ·) (init :: (runStep cfg env resume st f).checkpoints) ∧
    ∀ c ∈ init :: (runStep cfg env resume st f).checkpoints,
      c ⊆ (runStep cfg env resume st f).processed_frames_set := by
  have hmono := runStep_set_mono cfg env resume st f
  rcases runStep_checkpoints cfg env resume st f with hck | hck
  · rw [hck]
    exact ⟨h1, fun c hc => (h2 c hc).trans hmono⟩
  · rw [hck]
    constructor
    · have hsplit : init :: (st.checkpoints ++
          [(runStep cfg env resume st f).processed_frames_set]) =
        (init :: st.checkpoints) ++
          [(runStep cfg env resume st f).processed_frames_set] := rfl
      rw [hsplit, List.pairwise_append]
      refine ⟨h1, List.pairwise_singleton _ _, ?_⟩
      intro a ha b hb
      rw [List.mem_singleton] at hb
      subst hb
      exact (h2 a ha).trans hmono
    · intro c hc
      rcases List.mem_cons.mp hc with rfl | hc2
      · exact (h2 c (List.mem_cons_self _ _)).trans hmono
      · rcases List.mem_append.mp hc2 with hc3 | hc3
        · exact (h2 c (List.mem_cons_of_mem _ hc3)).trans hmono
        · rw [List.mem_singleton] at hc3
          subst hc3
          exact fun x hx => hx

theorem runFrames_pairwise_inv (cfg : PipelineCfg) (env : PipelineEnv) (resume : Bool)
    (init : List String) :
    ∀ (fs : List E2EDFrame) (st : RunState),
      List.Pairwise (· ⊆ ·) (init :: st.checkpoints) →
      (∀ c ∈ init :: st.checkpoints, c ⊆ st.processed_frames_set) →
      List.Pairwise (· ⊆ ·) (init :: (runFrames cfg env resume st fs).checkpoints) ∧
      ∀ c ∈ init :: (runFrames cfg env resume st fs).checkpoints,
        c ⊆ (runFrames cfg env resume st fs).processed_frames_set := by
  intro fs
  induction fs with
  | nil => intro st h1 h2; exact ⟨h1, h2⟩
  | cons g rest ih =>
    intro st h1 h2
    obtain ⟨h1', h2'⟩ := runStep_pairwise_inv cfg env resume init st g h1 h2
    exact ih (runStep cfg env resume st g) h1' h2'

theorem find?_filter_ne (fs : List (String × ResFileData)) (m key : String) (hm : m ≠ key) :
    (List.filter (fun p => p.1 ≠ key) fs).find? (fun p => p.1 = m) =
      fs.find? (fun p => p.1 = m) := by
  induction fs with
  | nil => rfl
  | cons a rest ih =>
    rw [List.filter_cons, List.find?_cons]
    by_cases hk : a.1 = key
    · have hd1 : decide (a.1 ≠ key) = false := by simp [hk]
      have hd2 : decide (a.1 = m) = false := by
        simp only [decide_eq_false_iff_not]
        rw [hk]
        exact fun hh => hm hh.symm
      rw [hd1, hd2]
      simp only [Bool.false_eq_true, if_false]
      exact ih
    · have hd1 : decide (a.1 ≠ key) = true := by simp [hk]
      rw [hd1]
      simp only [if_true]
      rw [List.find?_cons]
      by_cases ha : a.1 = m
      · have hd2 : decide (a.1 = m) = true := by simp [ha]
        rw [hd2]
      · have hd2 : decide (a.1 = m) = false := by simp [ha]
        rw [hd2]
        exact ih

/-! Claim theorems. -/

/-- C1 (counterexample): the claim says a completed run followed by a
`--resume` re-run on the unchanged dataset performs zero additional
annotation calls.  With a deterministic environment whose annotation
service fails (so the single frame ends in `failed_frames`, not in the
checkpoint), the first run completes with one failed frame and an empty
processed set, and the re-run calls the annotation client again: one
additional call, not zero. -/
theorem resume_recalls_failed_frame :
    (WaymoE2EPipeline.run testCfg envServiceDown false [] [goodFrame "seg-a" 1]).failed = 1 ∧
    (WaymoE2EPipeline.run testCfg envServiceDown false []
      [goodFrame "seg-a" 1]).processed_frames_set = [] ∧
    (WaymoE2EPipeline.run testCfg envServiceDown true
      (WaymoE2EPipeline.run testCfg envServiceDown false []
        [goodFrame "seg-a" 1]).processed_frames_set
      [goodFrame "seg-a" 1]).vlmCalls = 1 ∧
    (1 : Nat) ≠ 0 := by decide

/-- C1 (amended): if the first run finished with `failed_frames = 0`
(every frame that reached the annotation step was persisted and
checkpointed), then re-running with `--resume` on the unchanged dataset
performs zero annotation-client calls, writes no result file (so the
result files on disk are identical to the first run's), and ends with a
`processed_frames` set identical to the first run's.  Frames that failed
in the first run are outside the checkpoint and are re-attempted, which
is what the counterexample exhibits. -/
theorem resume_idempotent_when_no_failures (cfg : PipelineCfg) (env : PipelineEnv)
    (frames : List E2EDFrame)
    (h : (WaymoE2EPipeline.run cfg env false [] frames).failed = 0) :
    (WaymoE2EPipeline.run cfg env true
        (WaymoE2EPipeline.run cfg env false [] frames).processed_frames_set
        frames).vlmCalls = 0 ∧
    (WaymoE2EPipeline.run cfg env true
        (WaymoE2EPipeline.run cfg env false [] frames).processed_frames_set
        frames).results_written = [] ∧
    (WaymoE2EPipeline.run cfg env true
        (WaymoE2EPipeline.run cfg env false [] frames).processed_frames_set
        frames).processed_frames_set =
      (WaymoE2EPipeline.run cfg env false [] frames).processed_frames_set := by
  unfold WaymoE2EPipeline.run at *
  simp only [if_true, if_false, Bool.false_eq_true] at *
  have H := run1_reaching_in_set cfg env frames (initState []) h
  obtain ⟨h1, h2, h3⟩ := runFrames_resume_frozen cfg env
    (runFrames cfg env false (initState []) frames).processed_frames_set
    frames (initState (runFrames cfg env false (initState []) frames).processed_frames_set)
    rfl H
  exact ⟨h2, h3, h1⟩

/-- C1 witness: a one-frame dataset processed successfully end to end;
the first run has zero failures and the resumed run is idempotent. -/
theorem resume_idempotent_when_no_failures_witness :
    (WaymoE2EPipeline.run testCfg envAllOk false [] [goodFrame "seg-a" 1]).failed = 0 ∧
    ((WaymoE2EPipeline.run testCfg envAllOk true
        (WaymoE2EPipeline.run testCfg envAllOk false [] [goodFrame "seg-a" 1]).processed_frames_set
        [goodFrame "seg-a" 1]).vlmCalls = 0 ∧
      (WaymoE2EPipeline.run testCfg envAllOk true
        (WaymoE2EPipeline.run testCfg envAllOk false [] [goodFrame "seg-a" 1]).processed_frames_set
        [goodFrame "seg-a" 1]).results_written = [] ∧
      (WaymoE2EPipeline.run testCfg envAllOk true
        (WaymoE2EPipeline.run testCfg envAllOk false [] [goodFrame "seg-a" 1]).processed_frames_set
        [goodFrame "seg-a" 1]).processed_frames_set =
        (WaymoE2EPipeline.run testCfg envAllOk false []
          [goodFrame "seg-a" 1]).processed_frames_set) :=
  ⟨by decide, resume_idempotent_when_no_failures testCfg envAllOk [goodFrame "seg-a" 1] (by decide)⟩

/-- C2 (counterexample): the claim says a result-file write failure
(`PersistenceIOError`) is fatal and aborts the pipeline.  In the code,
`save_result` does re-raise, but `process_frame`'s blanket
`except Exception` (lines 157-160) catches it: with a two-frame dataset
whose first frame's save raises, the first frame is merely counted
failed and the second frame is still annotated and processed — the run
is not aborted. -/
theorem save_failure_does_not_abort_run :
    process_frame testCfg (envSaveFailsFor "seg-a") (goodFrame "seg-a" 1) =
      { success := false, outcome := .failed, vlmCalled := true, saved := none } ∧
    (WaymoE2EPipeline.run testCfg (envSaveFailsFor "seg-a") false []
      [goodFrame "seg-a" 1, goodFrame "seg-b" 2]).failed = 1 ∧
    (WaymoE2EPipeline.run testCfg (envSaveFailsFor "seg-a") false []
      [goodFrame "seg-a" 1, goodFrame "seg-b" 2]).processed = 1 ∧
    (WaymoE2EPipeline.run testCfg (envSaveFailsFor "seg-a") false []
      [goodFrame "seg-a" 1, goodFrame "seg-b" 2]).processed_frames_set = ["seg-b"] ∧
    (WaymoE2EPipeline.run testCfg (envSaveFailsFor "seg-a") false []
      [goodFrame "seg-a" 1, goodFrame "seg-b" 2]).vlmCalls = 2 := by decide

/-- C2 (amended): when writing the per-frame result file fails, the
exception is re-raised by `save_result` but caught by `process_frame`'s
own generic handler: the frame is recorded as a per-frame failure
(`failed` counter, `False` return, no result recorded, no checkpoint
membership), and the loop continues with the next frame instead of
aborting the run. -/
theorem save_failure_demoted_to_frame_failure (cfg : PipelineCfg) (env : PipelineEnv)
    (f : E2EDFrame) (txt : String) (resp : VlmResponse)
    (himg : env.processImages f ≠ [])
    (hval : (cfg.extractor.validate_frame f).1 = true)
    (hsvc : ∀ td, cfg.extractor.extract_all f = .ok td →
      env.service (env.buildPrompt td) (env.processImages f) = some txt)
    (htxt : txt ≠ "")
    (hp : env.parseResponse txt = some resp)
    (hsave : env.saveOk f.contextName = false) :
    process_frame cfg env f =
      { success := false, outcome := .failed, vlmCalled := true, saved := none } ∧
    ∀ (st : RunState) (rest : List E2EDFrame),
      runFrames cfg env false st (f :: rest) =
        runFrames cfg env false (runStep cfg env false st f) rest := by
  have hex : cfg.extractor.extract_all f = .ok
      { past_trajectory := extractTrajectory f.pastStates
        future_trajectory := extractTrajectory f.futureStates
        ego_status := TrajectoryExtractor.extract_ego_status f } := by
    unfold TrajectoryExtractor.extract_all
    simp [hval]
  refine ⟨?_, fun st rest => rfl⟩
  have hsvc2 := hsvc _ hex
  unfold process_frame
  simp [himg, hex, hsvc2, htxt, hp, hsave]

/-- C2 witness: concrete frame whose save raises while every earlier
stage succeeds. -/
theorem save_failure_demoted_to_frame_failure_witness :
    process_frame testCfg (envSaveFailsFor "seg-a") (goodFrame "seg-a" 1) =
      { success := false, outcome := .failed, vlmCalled := true, saved := none } ∧
    ∀ (st : RunState) (rest : List E2EDFrame),
      runFrames testCfg (envSaveFailsFor "seg-a") false st (goodFrame "seg-a" 1 :: rest) =
        runFrames testCfg (envSaveFailsFor "seg-a") false
          (runStep testCfg (envSaveFailsFor "seg-a") false st (goodFrame "seg-a" 1)) rest :=
  save_failure_demoted_to_frame_failure testCfg (envSaveFailsFor "seg-a")
    (goodFrame "seg-a" 1) "resp" okResponse (by decide) (by decide)
    (fun td _ => rfl) (by decide) rfl (by decide)

/-- C3 (counterexample): the claim says a fatal (auth/malformed-request)
failure makes the client return immediately with no retry attempt and no
backoff wait.  In `call_vlm` the `except Exception` clause cannot see
the failure kind: with `max_retries = 3`, base delay 2.0 and a fatal
failure on every attempt, the client still makes 3 attempts and sleeps
2.0 s and 4.0 s in between. -/
theorem fatal_error_still_retried :
    (VLMClient.call_vlm { max_retries := 3, retry_delay_seconds := 2 }
        fun _ => VlmAttemptOutcome.failure true).attempts = 3 ∧
    (VLMClient.call_vlm { max_retries := 3, retry_delay_seconds := 2 }
        fun _ => VlmAttemptOutcome.failure true).sleeps = [2, 4] := by
  have h := callVlmGo_all_fail ⟨3, 2⟩ (fun _ => .failure true) (fun _ => rfl) 3 0
    (by norm_num) (by rfl)
  rw [VLMClient.call_vlm, h]
  norm_num [List.range_succ]

/-- C3 (amended): `call_vlm` does not classify failures at all — its
retry behaviour depends only on whether each attempt succeeded, never on
the failure kind, so a fatal (auth) failure is retried with backoff
exactly like a transient one, and the call is reported failed only after
`max_retries` attempts with `max_retries - 1` backoff sleeps. -/
theorem retry_ignores_failure_kind (c : VLMClient)
    (envA envB envFatal : Nat → VlmAttemptOutcome)
    (h : ∀ i, (envA i).observed = (envB i).observed)
    (hf : ∀ i, envFatal i = .failure true) :
    VLMClient.call_vlm c envA = VLMClient.call_vlm c envB ∧
    (VLMClient.call_vlm c envFatal).attempts = c.max_retries ∧
    (VLMClient.call_vlm c envFatal).sleeps.length = c.max_retries - 1 := by
  have hobs : ∀ i, (envFatal i).observed = none := fun i => by rw [hf i]; rfl
  refine ⟨callVlmGo_observed_eq c envA envB h c.max_retries 0, ?_, ?_⟩
  · unfold VLMClient.call_vlm
    cases hmr : c.max_retries with
    | zero => rfl
    | succ n =>
      rw [callVlmGo_all_fail c envFatal hobs (n + 1) 0 (Nat.succ_pos n) (by omega)]
  · unfold VLMClient.call_vlm
    cases hmr : c.max_retries with
    | zero => rfl
    | succ n =>
      rw [callVlmGo_all_fail c envFatal hobs (n + 1) 0 (Nat.succ_pos n) (by omega)]
      simp

/-- C3 witness: with `max_retries = 3`, an all-fatal environment and an
all-transient environment produce identical call traces; the all-fatal
run makes 3 attempts and 2 backoff sleeps. -/
theorem retry_ignores_failure_kind_witness :
    VLMClient.call_vlm { max_retries := 3, retry_delay_seconds := 2 }
        (fun _ => VlmAttemptOutcome.failure true) =
      VLMClient.call_vlm { max_retries := 3, retry_delay_seconds := 2 }
        (fun _ => VlmAttemptOutcome.failure false) ∧
    (VLMClient.call_vlm { max_retries := 3, retry_delay_seconds := 2 }
        (fun _ => VlmAttemptOutcome.failure true)).attempts = 3 ∧
    (VLMClient.call_vlm { max_retries := 3, retry_delay_seconds := 2 }
        (fun _ => VlmAttemptOutcome.failure true)).sleeps.length = 2 :=
  retry_ignores_failure_kind ⟨3, 2⟩ (fun _ => .failure true) (fun _ => .failure false)
    (fun _ => .failure true) (fun _ => rfl) (fun _ => rfl)

/-- C4: with `max_retries = 3` and base delay 2.0 s, three consecutive
retryable failures produce exactly two backoff waits of 2.0 s then 4.0 s
(delay `D * 2 ** attempt`, `attempt` zero-indexed), the call returns the
terminal failure `None` after the third attempt with no further delay,
and for every configuration the client never makes more than
`max_retries` attempts. -/
theorem retry_backoff_timing (env : Nat → VlmAttemptOutcome)
    (h : ∀ i, env i = .failure false) :
    VLMClient.call_vlm { max_retries := 3, retry_delay_seconds := 2 } env =
      { result := none, sleeps := [2, 4], attempts := 3 } ∧
    ∀ (c : VLMClient) (envAny : Nat → VlmAttemptOutcome),
      (VLMClient.call_vlm c envAny).attempts ≤ c.max_retries := by
  constructor
  · have hobs : ∀ i, (env i).observed = none := fun i => by rw [h i]; rfl
    have hx := callVlmGo_all_fail ⟨3, 2⟩ env hobs 3 0 (by norm_num) (by rfl)
    rw [VLMClient.call_vlm, hx]
    norm_num [List.range_succ]
  · exact fun c envAny => call_vlm_attempts_le c envAny

/-- C4 witness: the all-transient-failure environment. -/
theorem retry_backoff_timing_witness :
    VLMClient.call_vlm { max_retries := 3, retry_delay_seconds := 2 }
        (fun _ => VlmAttemptOutcome.failure false) =
      { result := none, sleeps := [2, 4], attempts := 3 } ∧
    ∀ (c : VLMClient) (envAny : Nat → VlmAttemptOutcome),
      (VLMClient.call_vlm c envAny).attempts ≤ c.max_retries :=
  retry_backoff_timing (fun _ => .failure false) (fun _ => rfl)

/-- C5: `save_checkpoint` writes the complete serialization to the
temporary path and then renames it over the canonical path, so whatever
crash point is reached, the canonical checkpoint path afterwards holds
either exactly what it held before or the new complete checkpoint —
never the torn bytes of an interrupted write; and the loader accepts a
complete checkpoint while treating any torn file as empty (parse
failure degrades to the empty set). -/
theorem checkpoint_write_atomic (fs : CkptFS) (now : Nat) (s : List String)
    (tornBytes : String) (cp : CkptCrashPoint) :
    ((save_checkpoint fs now s tornBytes cp).canonical = fs.canonical ∨
      (save_checkpoint fs now s tornBytes cp).canonical =
        some (.complete (checkpointContent now s))) ∧
    (∀ b, load_checkpoint (some (.torn b)) = []) ∧
    load_checkpoint (some (.complete (checkpointContent now s))) = pySorted strLeB s := by
  refine ⟨?_, fun b => rfl, rfl⟩
  cases cp with
  | beforeTempWrite => left; rfl
  | duringTempWrite => left; rfl
  | afterTempWrite => left; rfl
  | completed => right; rfl

/-- C6 (counterexample): the claim says an interrupted `save_result`
write never leaves a corrupt/partial result file.  `save_result` writes
directly to the canonical `results/{frame_name}.json` with no temporary
file and no rename, so a process killed during `json.dump` leaves torn
bytes at the canonical path — neither the old complete record nor the
new one. -/
theorem save_result_torn_write :
    fsRead (save_result [(resultFileName "f", ResFileData.complete sampleRecord)]
        "f" sampleRecord2 "\x7b\"metadata\": \x7b\"frame" .duringWrite) (resultFileName "f") =
      some (.torn "\x7b\"metadata\": \x7b\"frame") ∧
    ResFileData.torn "\x7b\"metadata\": \x7b\"frame" ≠ .complete sampleRecord ∧
    ResFileData.torn "\x7b\"metadata\": \x7b\"frame" ≠ .complete sampleRecord2 := by decide

/-- C6 (amended): `save_result` writes each record to the file
deterministically and uniquely keyed by `frame_id`
(`results/{frame_id}.json`; the key function is injective), repeated
saves for the same `frame_id` overwrite with last-write-wins semantics,
and a completed save does not disturb any other file — but the write is
direct, so an interrupted write can leave a partial file (the
counterexample); the claim's no-partial-write guarantee does not hold. -/
theorem save_result_keyed_overwrite (fs : ResultsFS) (n n₁ n₂ : String)
    (r r' : ResultRecord) (t t' : String) (m : String) (hm : m ≠ resultFileName n) :
    (resultFileName n₁ = resultFileName n₂ → n₁ = n₂) ∧
    fsRead (save_result fs n r t .completed) (resultFileName n) = some (.complete r) ∧
    fsRead (save_result (save_result fs n r t .completed) n r' t' .completed)
      (resultFileName n) = some (.complete r') ∧
    fsRead (save_result fs n r t .completed) m = fsRead fs m := by
  refine ⟨?_, ?_, ?_, ?_⟩
  · intro h
    unfold resultFileName at h
    have hd : (n₁ ++ ".json").data = (n₂ ++ ".json").data := by rw [h]
    rw [String.data_append, String.data_append] at hd
    exact String.ext (List.append_cancel_right hd)
  · simp [save_result, fsWrite, fsRead, List.find?_cons]
  · simp [save_result, fsWrite, fsRead, List.find?_cons]
  · simp only [save_result, fsWrite, fsRead]
    rw [List.find?_cons_of_neg, find?_filter_ne fs m (resultFileName n) hm]
    simp only [decide_eq_true_eq]
    exact fun hh => hm hh.symm

/-- C6 witness: concrete keys and records. -/
theorem save_result_keyed_overwrite_witness :
    "other.json" ≠ resultFileName "f" ∧
    ((resultFileName "g" = resultFileName "h" → "g" = "h") ∧
      fsRead (save_result [] "f" sampleRecord "t" .completed) (resultFileName "f") =
        some (.complete sampleRecord) ∧
      fsRead (save_result (save_result [] "f" sampleRecord "t" .completed)
          "f" sampleRecord2 "t" .completed) (resultFileName "f") =
        some (.complete sampleRecord2) ∧
      fsRead (save_result [] "f" sampleRecord "t" .completed) "other.json" =
        fsRead [] "other.json") :=
  ⟨by decide,
    save_result_keyed_overwrite [] "f" "g" "h" sampleRecord sampleRecord2 "t" "t"
      "other.json" (by decide)⟩

/-- C7: a frame at `global_index` is included in the subsample iff
`global_index % stride == 0` (the sampler is the index filter over the
enumerated stream), the configured reference stride is
`int(10 / 1) = 10`, and for a dataset of shards named `b`, `a`, `c`
(sorted lexicographically to `a`, `b`, `c`) with 10 frames each and
stride 10, the included global indices are exactly 0, 10, 20 — the
first frame of each shard. -/
theorem sampling_included_iff_stride_divides {α : Type} (interval : Nat)
    (hpos : 0 < interval) (dataset : List α) :
    sample_frames_at_target_frequency interval dataset =
      dataset.enum.filterMap
        (fun p => if p.1 % interval = 0 then some p.2 else none) ∧
    sampling_interval 1 = 10 ∧
    sample_frames_at_target_frequency (sampling_interval 1)
      (load_dataset [("b", List.range' 10 10), ("a", List.range' 0 10),
        ("c", List.range' 20 10)]) = [0, 10, 20] := by
  have h0 : 0 < interval := hpos
  exact ⟨sampleGo_enumFrom interval dataset 0, rfl, by decide⟩

/-- C7 witness: stride 10 over the 30-frame three-shard dataset. -/
theorem sampling_included_iff_stride_divides_witness :
    0 < 10 ∧
    (sample_frames_at_target_frequency 10 (List.range 30) =
        (List.range 30).enum.filterMap
          (fun p => if p.1 % 10 = 0 then some p.2 else none) ∧
      sampling_interval 1 = 10 ∧
      sample_frames_at_target_frequency (sampling_interval 1)
        (load_dataset [("b", List.range' 10 10), ("a", List.range' 0 10),
          ("c", List.range' 20 10)]) = [0, 10, 20]) :=
  ⟨by decide, sampling_included_iff_stride_divides 10 (by decide) (List.range 30)⟩

/-- C8 (code bug): the claim — and the spec — require `frame_id` to be
globally unique, derived from the source context together with the frame
timestamp.  The code derives it from `frame.frame.context.name` alone
(`waymo_e2e_processor.py` line 89), so two distinct frames of the same
context with different timestamps share one `frame_id`: they collide on
the same result file, and after the first is processed a resumed run
skips the second without ever annotating it (zero client calls below),
losing work that the resumability contract promises to keep. -/
theorem frame_id_ignores_timestamp :
    frame_name_of (goodFrame "ctx" 1000) = frame_name_of (goodFrame "ctx" 2000) ∧
    (goodFrame "ctx" 1000).timestampMicros ≠ (goodFrame "ctx" 2000).timestampMicros ∧
    resultFileName (frame_name_of (goodFrame "ctx" 1000)) =
      resultFileName (frame_name_of (goodFrame "ctx" 2000)) ∧
    (WaymoE2EPipeline.run testCfg envAllOk true
      (WaymoE2EPipeline.run testCfg envAllOk false [] [goodFrame "ctx" 1000]).processed_frames_set
      [goodFrame "ctx" 1000, goodFrame "ctx" 2000]).vlmCalls = 0 := by decide

/-- C9: a frame whose `past_trajectory` length differs from the
configured expected length is rejected by `validate_frame`, makes
`extract_all` raise, and `process_frame` counts it as skipped, never
invokes the annotation client for it, and never persists anything from
it. -/
theorem validation_rejects_bad_past_length (cfg : PipelineCfg) (env : PipelineEnv)
    (f : E2EDFrame)
    (h : f.pastStates.pos_x.length ≠ cfg.extractor.expected_past_points) :
    (cfg.extractor.validate_frame f).1 = false ∧
    (∃ msg, cfg.extractor.extract_all f = Except.error msg) ∧
    process_frame cfg env f =
      { success := false, outcome := .skipped, vlmCalled := false, saved := none } := by
  have hval : (cfg.extractor.validate_frame f).1 = false := by
    unfold TrajectoryExtractor.validate_frame
    by_cases h1 : f.pastStates.pos_x.length ≠ f.pastStates.pos_y.length ∨
        f.pastStates.pos_x.length ≠ f.pastStates.pos_z.length
    · simp [h1]
    · simp [h1, h]
  refine ⟨hval, ?_, ?_⟩
  · refine ⟨(cfg.extractor.validate_frame f).2, ?_⟩
    unfold TrajectoryExtractor.extract_all
    simp [hval]
  · refine pf_not_reach cfg env f (fun hr => ?_)
    unfold reachesVlm at hr
    rw [hval] at hr
    exact absurd hr.2 (by decide)

/-- C9 witness: 15 past points where the default configuration expects
16. -/
theorem validation_rejects_bad_past_length_witness :
    shortPastFrame.pastStates.pos_x.length ≠ testCfg.extractor.expected_past_points ∧
    ((testCfg.extractor.validate_frame shortPastFrame).1 = false ∧
      (∃ msg, testCfg.extractor.extract_all shortPastFrame = Except.error msg) ∧
      process_frame testCfg envAllOk shortPastFrame =
        { success := false, outcome := .skipped, vlmCalled := false, saved := none }) :=
  ⟨by decide, validation_rejects_bad_past_length testCfg envAllOk shortPastFrame (by decide)⟩

/-- C10: within a single run the processed-frame set only grows — the
sequence formed by the set loaded at start (empty when not resuming)
followed by every checkpoint saved during the run, periodic and final,
is pairwise ordered by set inclusion: each checkpoint contains every id
of the loaded set and of every earlier checkpoint, and no id is ever
removed. -/
theorem checkpoint_sets_monotone (cfg : PipelineCfg) (env : PipelineEnv) (resume : Bool)
    (ckpt : List String) (frames : List E2EDFrame) :
    List.Pairwise (· ⊆ ·)
      ((if resume then ckpt else []) ::
        (WaymoE2EPipeline.run cfg env resume ckpt frames).checkpoints) := by
  unfold WaymoE2EPipeline.run
  obtain ⟨h1, h2⟩ := runFrames_pairwise_inv cfg env resume (if resume then ckpt else [])
    frames (initState (if resume then ckpt else []))
    (List.pairwise_singleton _ _)
    (by
      intro c hc
      simp only [initState, List.mem_singleton] at hc
      subst hc
      exact fun x hx => hx)
  simp only
  have hsplit : (if resume then ckpt else []) ::
      ((runFrames cfg env resume (initState (if resume then ckpt else [])) frames).checkpoints ++
        [(runFrames cfg env resume (initState (if resume then ckpt else []))
            frames).processed_frames_set]) =
      ((if resume then ckpt else []) ::
        (runFrames cfg env resume (initState (if resume then ckpt else []))
          frames).checkpoints) ++
        [(runFrames cfg env resume (initState (if resume then ckpt else []))
            frames).processed_frames_set] := rfl
  rw [hsplit, List.pairwise_append]
  refine ⟨h1, List.pairwise_singleton _ _, ?_⟩
  intro a ha b hb
  rw [List.mem_singleton] at hb
  subst hb
  exact h2 a ha
